import Mathlib

/-!
# laser_object_tracker: the MHT object model

A shallow embedding of `include/laser_object_tracker/tracking/mht/object_model.hpp`
(`ObjectReport`, `ObjectState`, `ObjectModel`, `ObjectFalseAlarm`, `ObjectTracker`).

Conventions of the embedding.

* A C++ `double` is a real number: arithmetic is exact and the operands are finite.
  The one place where the header produces non-finite doubles from finite ones is
  `std::log`; its result is a `LogValue`, which keeps `-inf` and `NaN` apart from the
  finite results.
* A C++ `int` is an `Int` in `[INT_MIN, INT_MAX]`; `++` on an `int` is followed by
  `wrapInt`, the two's-complement wrap-around to 32 bits.
* A constructor is a function into `Except TrackerError _`, so that "the constructor
  raises" can be stated; a method that mutates `*this` is a function returning the new
  object.
* Eigen fixed-size matrices are Mathlib matrices over `ℝ`.
* Where two objects have to be told apart (a state and its copy), memory is a map from
  addresses to objects, and an operation on one object updates the map at its address.
-/

namespace LaserObjectTracker

/-! ## Doubles, ints and `std::log` -/

/-- Largest value of a 32-bit `int`. -/
def INT_MAX : Int := 2147483647

/-- Smallest value of a 32-bit `int`. -/
def INT_MIN : Int := -2147483648

/-- Reduction of an integer to the 32-bit two's-complement range: the value an `int`
holds after an arithmetic result that does not fit (signed overflow is undefined in the
C++ standard; this is the wrap-around the usual targets produce). -/
def wrapInt (x : Int) : Int := (x + 2147483648) % 4294967296 - 2147483648

/-- Result of `std::log` applied to a finite double: a finite value for a strictly
positive argument, `-inf` at zero and `NaN` below zero. -/
inductive LogValue where
  | finite (v : ℝ)
  | negInf
  | nan

/-- The library function `std::log` on finite doubles. -/
noncomputable def stdLog (x : ℝ) : LogValue :=
  if 0 < x then LogValue.finite (Real.log x)
  else if x = 0 then LogValue.negInf
  else LogValue.nan

/-- Error kinds a constructor can raise. -/
inductive TrackerError where
  | ConfigurationInvalid
  deriving DecidableEq, Repr

/-! ## Features (declared in `feature_extraction/features/object.hpp`) -/

/-- The type `Eigen::Vector2d` of a reference point. -/
structure Point2D where
  x : ℝ
  y : ℝ

/-- Modelled from the spec: `Segment2D`, declared outside the available sources, is the
pair of end points `((x₁, y₁), (x₂, y₂))`. -/
structure Segment2D where
  first : Point2D
  second : Point2D

/-- Modelled from the spec: `Object::ReferencePointType`, declared outside the available
sources, is drawn from CORNER, CENTROID, VISIBLE_ENDPOINT. -/
inductive ReferencePointType where
  | CORNER
  | CENTROID
  | VISIBLE_ENDPOINT
  deriving DecidableEq, Repr

/-- Modelled from the spec: `Object::ReferencePointSource`, declared outside the available
sources, describes up to two line segments that define the corner. -/
structure ReferencePointSource where
  segments : List Segment2D

/-- Modelled from the spec: `feature_extraction::features::Object`, declared outside the
available sources, carries a reference point, its type and its source. -/
structure Object where
  reference_point : Point2D
  reference_point_type : ReferencePointType
  reference_point_source : ReferencePointSource

/-- Accessor `Object::getReferencePoint`. -/
def Object.getReferencePoint (o : Object) : Point2D := o.reference_point

/-! ## `ObjectReport` -/

/-- The class `ObjectReport`: `frame_number_` is an `int`, `corner_id_` a `size_t`. -/
structure ObjectReport where
  false_alarm_log_likelihood : ℝ
  object : Object
  frame_number : Int
  corner_id : Nat

/-- Constructor `ObjectReport::ObjectReport`. -/
def ObjectReport.new (false_alarm_log_likelihood : ℝ) (object : Object)
    (frame_number : Int) (corner_id : Nat) : ObjectReport :=
  { false_alarm_log_likelihood := false_alarm_log_likelihood
    object := object
    frame_number := frame_number
    corner_id := corner_id }

def ObjectReport.getFalseAlarmLogLikelihood (r : ObjectReport) : ℝ :=
  r.false_alarm_log_likelihood

def ObjectReport.getObject (r : ObjectReport) : Object := r.object

def ObjectReport.getFrameNumber (r : ObjectReport) : Int := r.frame_number

def ObjectReport.getCornerId (r : ObjectReport) : Nat := r.corner_id

/-! ## `ObjectState` -/

/-- Value of `ObjectState::STATE_DIMENSION`. -/
abbrev STATE_DIMENSION : Nat := 4

/-- Value of `ObjectState::MEASUREMENT_DIMENSION`. -/
abbrev MEASUREMENT_DIMENSION : Nat := 2

/-- The vector type `ObjectState::State`. -/
abbrev State := Fin STATE_DIMENSION → ℝ

/-- The vector type `ObjectState::Measurement`. -/
abbrev Measurement := Fin MEASUREMENT_DIMENSION → ℝ

abbrev StateTransition := Matrix (Fin STATE_DIMENSION) (Fin STATE_DIMENSION) ℝ

abbrev MeasurementMatrix := Matrix (Fin MEASUREMENT_DIMENSION) (Fin STATE_DIMENSION) ℝ

abbrev MeasurementNoiseCovariance :=
  Matrix (Fin MEASUREMENT_DIMENSION) (Fin MEASUREMENT_DIMENSION) ℝ

abbrev InitialStateCovariance := Matrix (Fin STATE_DIMENSION) (Fin STATE_DIMENSION) ℝ

abbrev ProcessNoiseCovariance := Matrix (Fin STATE_DIMENSION) (Fin STATE_DIMENSION) ℝ

/-- The members of `cv::KalmanFilter` for a 4-state, 2-measurement filter without
control input. -/
structure KalmanFilter where
  statePre : State
  statePost : State
  transitionMatrix : StateTransition
  measurementMatrix : MeasurementMatrix
  processNoiseCov : ProcessNoiseCovariance
  measurementNoiseCov : MeasurementNoiseCovariance
  errorCovPre : InitialStateCovariance
  errorCovPost : InitialStateCovariance
  gain : Matrix (Fin STATE_DIMENSION) (Fin MEASUREMENT_DIMENSION) ℝ

/-- Modelled from the spec: `copyKalmanFilter`, declared in the header and defined
outside the available sources, is the deep copy of a filter: every matrix of the result
holds the values of the argument. -/
def copyKalmanFilter (kalman_filter : KalmanFilter) : KalmanFilter :=
  { statePre := kalman_filter.statePre
    statePost := kalman_filter.statePost
    transitionMatrix := kalman_filter.transitionMatrix
    measurementMatrix := kalman_filter.measurementMatrix
    processNoiseCov := kalman_filter.processNoiseCov
    measurementNoiseCov := kalman_filter.measurementNoiseCov
    errorCovPre := kalman_filter.errorCovPre
    errorCovPost := kalman_filter.errorCovPost
    gain := kalman_filter.gain }

/-- The class `ObjectState`. `model` is the `MODEL*` kept by the base class `MDL_STATE`,
as the address it holds. -/
structure ObjectState where
  model : Nat
  time_step : ℝ
  log_likelihood : ℝ
  times_skipped : Int
  reference_point_type : ReferencePointType
  kalman_filter : KalmanFilter
  segment_1 : Segment2D
  segment_2 : Segment2D
  is_second_initialized : Bool

/-- Accessor `MDL_STATE::getMdl`. -/
def ObjectState.getMdl (s : ObjectState) : Nat := s.model

/-- Modelled from the spec: the private `ObjectState::initializeWithPointSource`, defined
outside the available sources, stores the segments of the first observation: the first
segment of the source in `segment_1_`, the second, when there is one, in `segment_2_`,
with the flag telling whether `segment_2_` has been initialized. -/
def ObjectState.initializeWithPointSource (s : ObjectState)
    (source : ReferencePointSource) : ObjectState :=
  match source.segments with
  | [] => s
  | [a] => { s with segment_1 := a }
  | a :: b :: _ => { s with segment_1 := a, segment_2 := b, is_second_initialized := true }

/-- A default-constructed `Segment2D` member, taken as the zero segment (the constructors
leave the members they do not initialize at their default). -/
def Segment2D.default : Segment2D := { first := ⟨0, 0⟩, second := ⟨0, 0⟩ }

/-- Constructor `ObjectState::ObjectState(MODEL*, ..., const cv::KalmanFilter&)`. -/
def ObjectState.new (model : Nat) (time_step log_likelihood : ℝ) (times_skipped : Int)
    (reference_point_type : ReferencePointType)
    (reference_point_source : ReferencePointSource)
    (kalman_filter : KalmanFilter) : ObjectState :=
  ObjectState.initializeWithPointSource
    { model := model
      time_step := time_step
      log_likelihood := log_likelihood
      times_skipped := times_skipped
      reference_point_type := reference_point_type
      kalman_filter := copyKalmanFilter kalman_filter
      segment_1 := Segment2D.default
      segment_2 := Segment2D.default
      is_second_initialized := false }
    reference_point_source

/-- Constructor `ObjectState::ObjectState(MODEL*, ..., const cv::KalmanFilter&, const State&)`:
delegates to the constructor without a state, then writes the state into `statePre` and
`statePost`. -/
def ObjectState.newWithState (model : Nat) (time_step log_likelihood : ℝ)
    (times_skipped : Int) (reference_point_type : ReferencePointType)
    (reference_point_source : ReferencePointSource)
    (kalman_filter : KalmanFilter) (state : State) : ObjectState :=
  let s := ObjectState.new model time_step log_likelihood times_skipped
    reference_point_type reference_point_source kalman_filter
  { s with kalman_filter := { s.kalman_filter with statePre := state, statePost := state } }

/-- Constructor `ObjectState::ObjectState(MODEL*, ..., cv::KalmanFilter&&, const State&)`:
takes the filter over, writes the state into `statePre` and `statePost`, then initializes
the segments. -/
def ObjectState.newMoved (model : Nat) (time_step log_likelihood : ℝ)
    (times_skipped : Int) (reference_point_type : ReferencePointType)
    (reference_point_source : ReferencePointSource)
    (kalman_filter : KalmanFilter) (state : State) : ObjectState :=
  ObjectState.initializeWithPointSource
    { model := model
      time_step := time_step
      log_likelihood := log_likelihood
      times_skipped := times_skipped
      reference_point_type := reference_point_type
      kalman_filter := { kalman_filter with statePre := state, statePost := state }
      segment_1 := Segment2D.default
      segment_2 := Segment2D.default
      is_second_initialized := false }
    reference_point_source

/-- Copy constructor `ObjectState::ObjectState(const ObjectState&)`. -/
def ObjectState.copy (other : ObjectState) : ObjectState :=
  { model := other.getMdl
    time_step := other.time_step
    log_likelihood := other.log_likelihood
    times_skipped := other.times_skipped
    reference_point_type := other.reference_point_type
    kalman_filter := copyKalmanFilter other.kalman_filter
    segment_1 := other.segment_1
    segment_2 := other.segment_2
    is_second_initialized := other.is_second_initialized }

def ObjectState.getLogLikelihood (s : ObjectState) : ℝ := s.log_likelihood

def ObjectState.setLogLikelihood (s : ObjectState) (log_likelihood : ℝ) : ObjectState :=
  { s with log_likelihood := log_likelihood }

/-- Method `ObjectState::incrementTimesSkipped`: `++times_skipped_` on an `int`. -/
def ObjectState.incrementTimesSkipped (s : ObjectState) : ObjectState :=
  { s with times_skipped := wrapInt (s.times_skipped + 1) }

def ObjectState.resetTimesSkipped (s : ObjectState) : ObjectState :=
  { s with times_skipped := 0 }

def ObjectState.getTimesSkipped (s : ObjectState) : Int := s.times_skipped

def ObjectState.getReferencePointType (s : ObjectState) : ReferencePointType :=
  s.reference_point_type

def ObjectState.getX (s : ObjectState) : ℝ := s.kalman_filter.statePost 0

def ObjectState.getXPredicted (s : ObjectState) : ℝ := s.kalman_filter.statePre 0

def ObjectState.setXPredicted (s : ObjectState) (x : ℝ) : ObjectState :=
  { s with kalman_filter :=
      { s.kalman_filter with statePre := Function.update s.kalman_filter.statePre 0 x } }

def ObjectState.getY (s : ObjectState) : ℝ := s.kalman_filter.statePost 1

def ObjectState.getYPredicted (s : ObjectState) : ℝ := s.kalman_filter.statePre 1

def ObjectState.setYPredicted (s : ObjectState) (y : ℝ) : ObjectState :=
  { s with kalman_filter :=
      { s.kalman_filter with statePre := Function.update s.kalman_filter.statePre 1 y } }

def ObjectState.getVelocityX (s : ObjectState) : ℝ := s.kalman_filter.statePost 2

def ObjectState.getVelocityY (s : ObjectState) : ℝ := s.kalman_filter.statePost 3

def ObjectState.getKalmanFilter (s : ObjectState) : KalmanFilter := s.kalman_filter

/-! ## `ObjectModel` -/

/-- The class `ObjectModel`. The three log-likelihood members hold results of
`std::log`. -/
structure ObjectModel where
  time_step : ℝ
  max_mahalanobis_distance : ℝ
  skip_decay_rate : ℝ
  start_log_likelihood : LogValue
  skip_log_likelihood : LogValue
  detect_log_likelihood : LogValue
  measurement_noise_covariance : MeasurementNoiseCovariance
  initial_state_covariance : InitialStateCovariance
  process_noise_covariance : ProcessNoiseCovariance
  state_transition : StateTransition
  measurement_matrix : MeasurementMatrix

/-- Constructor `ObjectModel::ObjectModel`: the member initializers, then the two
comma-initialized matrices. Its body has no `throw`. -/
noncomputable def ObjectModel.new (time_step max_mahalanobis_distance skip_decay_rate
    start_likelihood detect_likelihood : ℝ)
    (measurement_noise_covariance : MeasurementNoiseCovariance)
    (initial_state_covariance : InitialStateCovariance)
    (process_noise_covariance : ProcessNoiseCovariance) :
    Except TrackerError ObjectModel :=
  Except.ok
    { time_step := time_step
      max_mahalanobis_distance := max_mahalanobis_distance
      skip_decay_rate := skip_decay_rate
      start_log_likelihood := stdLog start_likelihood
      skip_log_likelihood := stdLog (1 - detect_likelihood)
      detect_log_likelihood := stdLog detect_likelihood
      measurement_noise_covariance := measurement_noise_covariance
      initial_state_covariance := initial_state_covariance
      process_noise_covariance := process_noise_covariance
      state_transition := !![1.0, 0.0, time_step, 0.0;
                             0.0, 1.0, 0.0, time_step;
                             0.0, 0.0, 1.0, 0.0;
                             0.0, 0.0, 0.0, 1.0]
      measurement_matrix := !![1.0, 0.0, 0.0, 0.0;
                               0.0, 1.0, 0.0, 0.0] }

/-- Method `ObjectModel::beginNewStates`; an absent state or report is a null pointer. -/
def ObjectModel.beginNewStates (_m : ObjectModel) (_state : Option ObjectState)
    (_report : Option ObjectReport) : Int := 1

/-- Modelled from the spec: the private `ObjectModel::getEndProbability`, declared in the
header and defined outside the available sources, is
`end_prob = 1 − exp(−times_skipped / skip_decay_rate)`. -/
noncomputable def ObjectModel.getEndProbability (m : ObjectModel) (state : ObjectState) : ℝ :=
  1 - Real.exp (-(state.getTimesSkipped : ℝ) / m.skip_decay_rate)

/-- Method `ObjectModel::getEndLogLikelihood`: `auto object_state = ...` copy-constructs
an `ObjectState` from the argument, and the probability is taken of the copy. -/
noncomputable def ObjectModel.getEndLogLikelihood (m : ObjectModel) (state : ObjectState) :
    LogValue :=
  let object_state := ObjectState.copy state
  stdLog (m.getEndProbability object_state)

/-- Method `ObjectModel::getContinueLogLikelihood`. -/
noncomputable def ObjectModel.getContinueLogLikelihood (m : ObjectModel)
    (state : ObjectState) : LogValue :=
  let object_state := ObjectState.copy state
  stdLog (1.0 - m.getEndProbability object_state)

def ObjectModel.getSkipLogLikelihood (m : ObjectModel) (_state : ObjectState) : LogValue :=
  m.skip_log_likelihood

def ObjectModel.getDetectLogLikelihood (m : ObjectModel) (_state : ObjectState) : LogValue :=
  m.detect_log_likelihood

/-! ## `ObjectFalseAlarm` -/

/-- The class `ObjectFalseAlarm`. -/
structure ObjectFalseAlarm where
  x : ℝ
  y : ℝ
  frame_number : Int
  corner_id : Nat

/-- Constructor `ObjectFalseAlarm::ObjectFalseAlarm(const ObjectReport*)`. -/
def ObjectFalseAlarm.new (report : ObjectReport) : ObjectFalseAlarm :=
  { x := report.getObject.getReferencePoint.x
    y := report.getObject.getReferencePoint.x
    frame_number := report.getFrameNumber
    corner_id := report.getCornerId }

/-! ## `ObjectTracker` -/

/-- The part of the library base class `MDL_MHT` the tracker's constructor touches: the
three arguments handed to it and the list of models. -/
structure MDL_MHT where
  max_depth : Int
  min_g_hypo_ratio : ℝ
  max_g_hypos : Int
  m_modelList : List ObjectModel

/-- Modelled from the spec: `Track`, declared in `tracking/mht/track.hpp` outside the
available sources, has a stable integer identity. -/
structure Track where
  id : Int

/-- The class `ObjectTracker`. -/
structure ObjectTracker extends MDL_MHT where
  false_alarm_log_likelihood : LogValue
  tracks : List Track
  false_alarms : List ObjectFalseAlarm

/-- Constructor `ObjectTracker::ObjectTracker`. The base-class constructor belongs to the
MHT library and is the parameter `base`; after it the constructor takes the logarithm of
`false_alarm_likelihood` and appends the models. Its own body has no `throw`. -/
noncomputable def ObjectTracker.new
    (base : Int → ℝ → Int → Except TrackerError MDL_MHT)
    (false_alarm_likelihood : ℝ) (max_depth : Int) ( min_g_hypo_ratio : ℝ)
    (max_g_hypos : Int) (models : List ObjectModel) : Except TrackerError ObjectTracker :=
  match base max_depth min_g_hypo_ratio max_g_hypos with
  | Except.error e => Except.error e
  | Except.ok b =>
    Except.ok
      { toMDL_MHT := { b with m_modelList := b.m_modelList ++ models }
        false_alarm_log_likelihood := stdLog false_alarm_likelihood
        tracks := []
        false_alarms := [] }

def ObjectTracker.getTracks (t : ObjectTracker) : List Track := t.tracks

def ObjectTracker.getFalseAlarms (t : ObjectTracker) : List ObjectFalseAlarm := t.false_alarms

/-! ## Sequences of operations on an `ObjectState` -/

/-- The operations on an `ObjectState` the skip-counter invariant ranges over: the
mutators that do not run the Kalman filter, and copy construction. -/
inductive StateOp where
  | incrementTimesSkipped
  | resetTimesSkipped
  | setLogLikelihood (log_likelihood : ℝ)
  | setXPredicted (x : ℝ)
  | setYPredicted (y : ℝ)
  | copy

/-- One operation applied to a state. -/
def ObjectState.apply (s : ObjectState) : StateOp → ObjectState
  | .incrementTimesSkipped => s.incrementTimesSkipped
  | .resetTimesSkipped => s.resetTimesSkipped
  | .setLogLikelihood l => s.setLogLikelihood l
  | .setXPredicted x => s.setXPredicted x
  | .setYPredicted y => s.setYPredicted y
  | .copy => s.copy

/-- A finite sequence of operations applied from left to right. -/
def ObjectState.run (s : ObjectState) : List StateOp → ObjectState
  | [] => s
  | op :: ops => (s.apply op).run ops

/-- No `incrementTimesSkipped` of the sequence is executed while the counter holds
`INT_MAX`. -/
def ObjectState.noOverflow (s : ObjectState) : List StateOp → Bool
  | [] => true
  | .incrementTimesSkipped :: ops =>
      decide (s.getTimesSkipped < INT_MAX) && (s.apply .incrementTimesSkipped).noOverflow ops
  | op :: ops => (s.apply op).noOverflow ops

def StateOp.isIncrement : StateOp → Bool
  | .incrementTimesSkipped => true
  | _ => false

def StateOp.isReset : StateOp → Bool
  | .resetTimesSkipped => true
  | _ => false

/-- The operations that follow the last `resetTimesSkipped` of a sequence; the whole
sequence when it has no reset. -/
def afterLastReset : List StateOp → List StateOp
  | [] => []
  | op :: ops =>
    if ops.any StateOp.isReset then afterLastReset ops
    else if op.isReset then ops
    else op :: ops

/-- The count in the words of the specification: the number of increments since the last
reset, or, without a reset, the initial value plus the number of increments since
construction. -/
def countSinceReset (initial : Int) (ops : List StateOp) : Int :=
  if ops.any StateOp.isReset then ((afterLastReset ops).countP StateOp.isIncrement : Int)
  else initial + (ops.countP StateOp.isIncrement : Int)

/-! ## `ObjectState` objects in memory -/

/-- The `ObjectState` objects alive in memory, by address. -/
abbrev StateHeap := Nat → Option ObjectState

/-- Copy construction `new (dst) ObjectState(*src)`: the object at `src` is copied into the
storage at `dst`; nothing happens when there is no object at `src`. -/
def StateHeap.copyConstruct (h : StateHeap) (src dst : Nat) : StateHeap :=
  match h src with
  | some s => Function.update h dst (some s.copy)
  | none => h

/-- An operation called on the object at `addr`: that object is replaced by the result of
the operation; nothing happens when there is no object at `addr`. -/
def StateHeap.call (h : StateHeap) (addr : Nat) (op : StateOp) : StateHeap :=
  match h addr with
  | some s => Function.update h addr (some (s.apply op))
  | none => h

/-- A finite sequence of operations called on the object at `addr`, from left to right. -/
def StateHeap.callAll (h : StateHeap) (addr : Nat) : List StateOp → StateHeap
  | [] => h
  | op :: ops => (h.call addr op).callAll addr ops

/-! ## Calls on an `ObjectReport` -/

/-- The public member functions of `ObjectReport` that can be called on a constructed
report. -/
inductive ReportOp where
  | getFalseAlarmLogLikelihood
  | getObject
  | getFrameNumber
  | getCornerId

/-- The value a public member function of `ObjectReport` returns. -/
inductive ReportValue where
  | double (v : ℝ)
  | object (o : Object)
  | int (i : Int)
  | size_t (n : Nat)

/-- A call of a public member function: the value returned, paired with the report after
the call. The four functions are declared `const` and return a member. -/
def ObjectReport.call (r : ObjectReport) : ReportOp → ReportValue × ObjectReport
  | .getFalseAlarmLogLikelihood => (ReportValue.double r.getFalseAlarmLogLikelihood, r)
  | .getObject => (ReportValue.object r.getObject, r)
  | .getFrameNumber => (ReportValue.int r.getFrameNumber, r)
  | .getCornerId => (ReportValue.size_t r.getCornerId, r)

/-- The report after a finite sequence of calls, from left to right. -/
def ObjectReport.callAll (r : ObjectReport) : List ReportOp → ObjectReport
  | [] => r
  | op :: ops => (r.call op).2.callAll ops

/-! ## Concrete inputs -/

/-- A filter with every matrix zero. -/
def zeroKalmanFilter : KalmanFilter :=
  { statePre := 0
    statePost := 0
    transitionMatrix := 0
    measurementMatrix := 0
    processNoiseCov := 0
    measurementNoiseCov := 0
    errorCovPre := 0
    errorCovPost := 0
    gain := 0 }

/-- A centroid state with unit time step, log-likelihood zero and the given number of
skipped frames, built by the constructor. -/
def stateWithSkips (times_skipped : Int) : ObjectState :=
  ObjectState.new 0 1 0 times_skipped ReferencePointType.CENTROID ⟨[]⟩ zeroKalmanFilter

/-- A memory with one state, constructed with one skip, at address 0. -/
def oneStateHeap : StateHeap := fun addr => if addr = 0 then some (stateWithSkips 1) else none

/-- The model the constructor builds from unit time step, gate and decay rate, start and
detect likelihood one half and identity covariances. -/
noncomputable def halfModel : ObjectModel :=
  { time_step := 1
    max_mahalanobis_distance := 1
    skip_decay_rate := 1
    start_log_likelihood := stdLog (1 / 2)
    skip_log_likelihood := stdLog (1 - 1 / 2)
    detect_log_likelihood := stdLog (1 / 2)
    measurement_noise_covariance := 1
    initial_state_covariance := 1
    process_noise_covariance := 1
    state_transition := !![1.0, 0.0, 1, 0.0;
                           0.0, 1.0, 0.0, 1;
                           0.0, 0.0, 1.0, 0.0;
                           0.0, 0.0, 0.0, 1.0]
    measurement_matrix := !![1.0, 0.0, 0.0, 0.0;
                             0.0, 1.0, 0.0, 0.0] }

/-- A centroid observation at (1, 2), reported in frame 3 with corner id 4. -/
def reportAtOneTwo : ObjectReport :=
  ObjectReport.new 0 ⟨⟨1, 2⟩, ReferencePointType.CENTROID, ⟨[]⟩⟩ 3 4

/-- A sequence with two increments, a reset and one more increment, interleaved with the
other operations. -/
def sampleOps : List StateOp :=
  [StateOp.incrementTimesSkipped, StateOp.setLogLikelihood 0, StateOp.copy,
   StateOp.incrementTimesSkipped, StateOp.resetTimesSkipped,
   StateOp.incrementTimesSkipped, StateOp.setXPredicted 1, StateOp.setYPredicted 1]

/-! ## Lemmas on `std::log` and the end probability -/

theorem getEndProbability_copy (m : ObjectModel) (s : ObjectState) :
    m.getEndProbability (ObjectState.copy s) = m.getEndProbability s := rfl

theorem getEndProbability_lt_one (m : ObjectModel) (s : ObjectState) :
    m.getEndProbability s < 1 := by
  unfold ObjectModel.getEndProbability
  linarith [Real.exp_pos (-(s.getTimesSkipped : ℝ) / m.skip_decay_rate)]

/-! ## The transition log-likelihoods -/

/-- C1: for every model and state, `getEndLogLikelihood` is the logarithm of the end
probability of that state and `getContinueLogLikelihood` the logarithm of one minus it;
the copy both methods work on has the state's `times_skipped` and the same end
probability. -/
theorem end_and_continue_log_likelihood_of_end_probability (m : ObjectModel)
    (s : ObjectState) :
    m.getEndLogLikelihood s = stdLog (m.getEndProbability s) ∧
    m.getContinueLogLikelihood s = stdLog (1 - m.getEndProbability s) ∧
    (ObjectState.copy s).getTimesSkipped = s.getTimesSkipped ∧
    m.getEndProbability (ObjectState.copy s) = m.getEndProbability s := by
  refine ⟨?_, ?_, rfl, rfl⟩
  · simp only [ObjectModel.getEndLogLikelihood, getEndProbability_copy]
  · simp only [ObjectModel.getContinueLogLikelihood, getEndProbability_copy]
    norm_num

/-- C2: for a positive skip decay rate the end probability is strictly increasing in
`times_skipped` on the non-negative counts, equals
`1 - exp(-times_skipped / skip_decay_rate)`, is zero at `times_skipped = 0` and stays
below one. -/
theorem end_probability_strictly_increasing (m : ObjectModel) (a b : ObjectState)
    (hr : 0 < m.skip_decay_rate) (ha : 0 ≤ a.getTimesSkipped)
    (hab : a.getTimesSkipped < b.getTimesSkipped) :
    m.getEndProbability a < m.getEndProbability b ∧
    m.getEndProbability a
      = 1 - Real.exp (-(a.getTimesSkipped : ℝ) / m.skip_decay_rate) ∧
    (a.getTimesSkipped = 0 → m.getEndProbability a = 0) ∧
    0 ≤ m.getEndProbability a ∧
    m.getEndProbability a < 1 ∧ m.getEndProbability b < 1 := by
  have hcast : (a.getTimesSkipped : ℝ) < (b.getTimesSkipped : ℝ) := by exact_mod_cast hab
  have ha0 : (0 : ℝ) ≤ (a.getTimesSkipped : ℝ) := by exact_mod_cast ha
  refine ⟨?_, rfl, ?_, ?_, getEndProbability_lt_one m a, getEndProbability_lt_one m b⟩
  · unfold ObjectModel.getEndProbability
    have hdiv : -(b.getTimesSkipped : ℝ) / m.skip_decay_rate
        < -(a.getTimesSkipped : ℝ) / m.skip_decay_rate :=
      div_lt_div_of_pos_right (neg_lt_neg hcast) hr
    linarith [Real.exp_lt_exp.mpr hdiv]
  · intro h0
    simp [ObjectModel.getEndProbability, h0]
  · unfold ObjectModel.getEndProbability
    have hle : -(a.getTimesSkipped : ℝ) / m.skip_decay_rate ≤ 0 :=
      div_nonpos_of_nonpos_of_nonneg (neg_nonpos.mpr ha0) hr.le
    linarith [Real.exp_le_one_iff.mpr hle]

/-- Instance of the C2 theorem: unit decay rate, a state with no skip against a state
with three. -/
theorem end_probability_strictly_increasing_witness :
    halfModel.getEndProbability (stateWithSkips 0)
      < halfModel.getEndProbability (stateWithSkips 3) ∧
    halfModel.getEndProbability (stateWithSkips 0)
      = 1 - Real.exp (-((stateWithSkips 0).getTimesSkipped : ℝ) / halfModel.skip_decay_rate) ∧
    ((stateWithSkips 0).getTimesSkipped = 0 →
      halfModel.getEndProbability (stateWithSkips 0) = 0) ∧
    0 ≤ halfModel.getEndProbability (stateWithSkips 0) ∧
    halfModel.getEndProbability (stateWithSkips 0) < 1 ∧
    halfModel.getEndProbability (stateWithSkips 3) < 1 :=
  end_probability_strictly_increasing halfModel (stateWithSkips 0) (stateWithSkips 3)
    (by simp [halfModel]) (by decide) (by decide)

/-- C5: evaluation of the constructor on a report whose reference point is (1, 2): the
record stores `x_ = 1` and the frame number and corner id of the report, but `y_ = 1`,
the x coordinate, where the reference point has `y = 2`. -/
theorem false_alarm_stores_x_in_y :
    (ObjectFalseAlarm.new reportAtOneTwo).x = 1 ∧
    (ObjectFalseAlarm.new reportAtOneTwo).y = 1 ∧
    reportAtOneTwo.getObject.getReferencePoint.y = 2 ∧
    (ObjectFalseAlarm.new reportAtOneTwo).y ≠ reportAtOneTwo.getObject.getReferencePoint.y ∧
    (ObjectFalseAlarm.new reportAtOneTwo).frame_number = 3 ∧
    (ObjectFalseAlarm.new reportAtOneTwo).corner_id = 4 := by
  refine ⟨rfl, rfl, rfl, ?_, rfl, rfl⟩
  show (1 : ℝ) ≠ 2
  norm_num

/-! ## The model's constants -/

/-- C6: for every model and every pair of state and report, absent ones included,
`beginNewStates` returns exactly 1. -/
theorem beginNewStates_eq_one (m : ObjectModel) (state : Option ObjectState)
    (report : Option ObjectReport) : m.beginNewStates state report = 1 :=
  rfl

/-- C7: the model constructed with detect likelihood `d` returns `log(d)` from
`getDetectLogLikelihood` for every state (the finite real logarithm when `d > 0`), so the
result is the same for any two states. -/
theorem getDetectLogLikelihood_eq_log (time_step max_mahalanobis_distance
    skip_decay_rate start_likelihood d : ℝ)
    (R : MeasurementNoiseCovariance) (P : InitialStateCovariance)
    (Q : ProcessNoiseCovariance) :
    ∃ m, ObjectModel.new time_step max_mahalanobis_distance skip_decay_rate
          start_likelihood d R P Q = Except.ok m ∧
      (∀ s, m.getDetectLogLikelihood s = stdLog d) ∧
      (∀ s, 0 < d → m.getDetectLogLikelihood s = LogValue.finite (Real.log d)) ∧
      (∀ s s', m.getDetectLogLikelihood s = m.getDetectLogLikelihood s') := by
  refine ⟨_, rfl, fun _ => rfl, ?_, fun _ _ => rfl⟩
  intro s hd
  simp [ObjectModel.getDetectLogLikelihood, stdLog, hd]

/-- C8: the model constructed with detect likelihood `d` returns `log(1 - d)` from
`getSkipLogLikelihood` for every state (the finite real logarithm when `d < 1`), so the
result is the same for any two states. -/
theorem getSkipLogLikelihood_eq_log (time_step max_mahalanobis_distance
    skip_decay_rate start_likelihood d : ℝ)
    (R : MeasurementNoiseCovariance) (P : InitialStateCovariance)
    (Q : ProcessNoiseCovariance) :
    ∃ m, ObjectModel.new time_step max_mahalanobis_distance skip_decay_rate
          start_likelihood d R P Q = Except.ok m ∧
      (∀ s, m.getSkipLogLikelihood s = stdLog (1 - d)) ∧
      (∀ s, d < 1 → m.getSkipLogLikelihood s = LogValue.finite (Real.log (1 - d))) ∧
      (∀ s s', m.getSkipLogLikelihood s = m.getSkipLogLikelihood s') := by
  refine ⟨_, rfl, fun _ => rfl, ?_, fun _ _ => rfl⟩
  intro s hd
  have hpos : 0 < 1 - d := by linarith
  simp [ObjectModel.getSkipLogLikelihood, stdLog, hpos]

/-- C9: the state transition matrix the constructor builds for time step `dt` is the
constant-velocity transition: applied to `(x, y, vx, vy)` it gives
`(x + dt*vx, y + dt*vy, vx, vy)`. -/
theorem state_transition_constant_velocity (dt max_mahalanobis_distance
    skip_decay_rate start_likelihood detect_likelihood : ℝ)
    (R : MeasurementNoiseCovariance) (P : InitialStateCovariance)
    (Q : ProcessNoiseCovariance) :
    ∃ m, ObjectModel.new dt max_mahalanobis_distance skip_decay_rate
          start_likelihood detect_likelihood R P Q = Except.ok m ∧
      ∀ x y vx vy : ℝ,
        m.state_transition.mulVec ![x, y, vx, vy] = ![x + dt * vx, y + dt * vy, vx, vy] := by
  refine ⟨_, rfl, ?_⟩
  intro x y vx vy
  funext i
  fin_cases i <;> simp [Matrix.mulVec, Matrix.dotProduct, Fin.sum_univ_four] <;> norm_num

/-! ## The skip counter -/

theorem wrapInt_of_int_range (x : Int) (hlo : INT_MIN ≤ x) (hhi : x ≤ INT_MAX) :
    wrapInt x = x := by
  unfold INT_MIN at hlo
  unfold INT_MAX at hhi
  unfold wrapInt
  omega

theorem getTimesSkipped_incrementTimesSkipped (s : ObjectState)
    (h0 : 0 ≤ s.getTimesSkipped) (hmax : s.getTimesSkipped < INT_MAX) :
    s.incrementTimesSkipped.getTimesSkipped = s.getTimesSkipped + 1 := by
  unfold ObjectState.getTimesSkipped at h0 hmax
  unfold INT_MAX at hmax
  show wrapInt (s.times_skipped + 1) = s.times_skipped + 1
  apply wrapInt_of_int_range
  · unfold INT_MIN
    omega
  · unfold INT_MAX
    omega

theorem countSinceReset_increment (initial : Int) (ops : List StateOp) :
    countSinceReset initial (StateOp.incrementTimesSkipped :: ops)
      = countSinceReset (initial + 1) ops := by
  unfold countSinceReset
  by_cases h : ops.any StateOp.isReset = true
  · simp [afterLastReset, StateOp.isReset, h]
  · simp [StateOp.isReset, StateOp.isIncrement, h]
    omega

theorem countSinceReset_reset (initial : Int) (ops : List StateOp) :
    countSinceReset initial (StateOp.resetTimesSkipped :: ops) = countSinceReset 0 ops := by
  unfold countSinceReset
  by_cases h : ops.any StateOp.isReset = true
  · simp [afterLastReset, StateOp.isReset, h]
  · simp [afterLastReset, StateOp.isReset, h]

theorem countSinceReset_other (initial : Int) (op : StateOp) (ops : List StateOp)
    (hinc : op.isIncrement = false) (hreset : op.isReset = false) :
    countSinceReset initial (op :: ops) = countSinceReset initial ops := by
  unfold countSinceReset
  by_cases h : ops.any StateOp.isReset = true
  · simp [afterLastReset, hreset, h]
  · simp [hreset, hinc, h]

theorem run_getTimesSkipped (ops : List StateOp) :
    ∀ s : ObjectState, 0 ≤ s.getTimesSkipped → s.noOverflow ops = true →
      0 ≤ (s.run ops).getTimesSkipped ∧
      (s.run ops).getTimesSkipped = countSinceReset s.getTimesSkipped ops := by
  induction ops with
  | nil =>
    intro s h0 _
    refine ⟨h0, ?_⟩
    simp [countSinceReset, ObjectState.run]
  | cons op ops ih =>
    intro s h0 hno
    cases op with
    | incrementTimesSkipped =>
      simp only [ObjectState.noOverflow, Bool.and_eq_true, decide_eq_true_eq] at hno
      obtain ⟨hmax, hrest⟩ := hno
      have hstep := getTimesSkipped_incrementTimesSkipped s h0 hmax
      have h := ih s.incrementTimesSkipped (by rw [hstep]; omega) hrest
      rw [hstep] at h
      rw [countSinceReset_increment]
      exact h
    | resetTimesSkipped =>
      rw [countSinceReset_reset]
      exact ih s.resetTimesSkipped (le_refl 0) hno
    | setLogLikelihood l =>
      rw [countSinceReset_other _ (StateOp.setLogLikelihood l) _ rfl rfl]
      exact ih (s.setLogLikelihood l) h0 hno
    | setXPredicted x =>
      rw [countSinceReset_other _ (StateOp.setXPredicted x) _ rfl rfl]
      exact ih (s.setXPredicted x) h0 hno
    | setYPredicted y =>
      rw [countSinceReset_other _ (StateOp.setYPredicted y) _ rfl rfl]
      exact ih (s.setYPredicted y) h0 hno
    | copy =>
      rw [countSinceReset_other _ StateOp.copy _ rfl rfl]
      exact ih s.copy h0 hno

/-- C10 as stated fails: a state constructed with `times_skipped = INT_MAX`, which is
non-negative, holds `INT_MIN` after one `incrementTimesSkipped`: the counter is negative
and was not raised by one. -/
theorem increment_at_int_max_goes_negative :
    0 ≤ (stateWithSkips 2147483647).getTimesSkipped ∧
    (stateWithSkips 2147483647).getTimesSkipped = INT_MAX ∧
    ((stateWithSkips 2147483647).run [StateOp.incrementTimesSkipped]).getTimesSkipped
      = INT_MIN ∧
    ((stateWithSkips 2147483647).run [StateOp.incrementTimesSkipped]).getTimesSkipped < 0 ∧
    (stateWithSkips 2147483647).incrementTimesSkipped.getTimesSkipped
      ≠ (stateWithSkips 2147483647).getTimesSkipped + 1 := by
  decide

/-- C10, amended: for a state whose `times_skipped` is non-negative (the constructors
store their `times_skipped` argument unchanged) and any finite sequence of
`incrementTimesSkipped`, `resetTimesSkipped`, `setLogLikelihood`, `setXPredicted`,
`setYPredicted` and copy-construction in which no increment is executed at `INT_MAX`,
`getTimesSkipped()` stays non-negative and equals the number of increments since the
last reset (or the initial value plus the number of increments when there was no
reset); from the state reached, `incrementTimesSkipped` raises the counter by exactly
one when it is below `INT_MAX`, and `resetTimesSkipped` makes it exactly zero. -/
theorem times_skipped_nonneg_without_overflow (s : ObjectState) (ops : List StateOp)
    (h0 : 0 ≤ s.getTimesSkipped) (hno : s.noOverflow ops = true) :
    0 ≤ (s.run ops).getTimesSkipped ∧
    (s.run ops).getTimesSkipped = countSinceReset s.getTimesSkipped ops ∧
    ((s.run ops).getTimesSkipped < INT_MAX →
      (s.run ops).incrementTimesSkipped.getTimesSkipped
        = (s.run ops).getTimesSkipped + 1) ∧
    (s.run ops).resetTimesSkipped.getTimesSkipped = 0 ∧
    (∀ model time_step log_likelihood times_skipped reference_point_type
        reference_point_source kalman_filter state,
      (ObjectState.new model time_step log_likelihood times_skipped reference_point_type
        reference_point_source kalman_filter).getTimesSkipped = times_skipped ∧
      (ObjectState.newWithState model time_step log_likelihood times_skipped
        reference_point_type reference_point_source kalman_filter state).getTimesSkipped
        = times_skipped ∧
      (ObjectState.newMoved model time_step log_likelihood times_skipped
        reference_point_type reference_point_source kalman_filter state).getTimesSkipped
        = times_skipped) := by
  obtain ⟨hnonneg, hcount⟩ := run_getTimesSkipped ops s h0 hno
  refine ⟨hnonneg, hcount, ?_, rfl, ?_⟩
  · intro hmax
    exact getTimesSkipped_incrementTimesSkipped _ hnonneg hmax
  · intro model time_step log_likelihood times_skipped reference_point_type
      reference_point_source kalman_filter state
    unfold ObjectState.newWithState ObjectState.newMoved ObjectState.new
      ObjectState.initializeWithPointSource ObjectState.getTimesSkipped
    refine ⟨?_, ?_, ?_⟩ <;> split <;> rfl

/-- Instance of the amended C10 theorem: from a state constructed with one skip, the
sample sequence ends at a count of one, the single increment after its reset. -/
theorem times_skipped_nonneg_without_overflow_witness :
    0 ≤ ((stateWithSkips 1).run sampleOps).getTimesSkipped ∧
    ((stateWithSkips 1).run sampleOps).getTimesSkipped = 1 ∧
    ((stateWithSkips 1).run sampleOps).resetTimesSkipped.getTimesSkipped = 0 :=
  have h := times_skipped_nonneg_without_overflow (stateWithSkips 1) sampleOps
    (by decide)
    (by decide)
  ⟨h.1, h.2.1.trans (by decide), h.2.2.2.1⟩

/-! ## Copies of a state -/

theorem StateHeap.callAll_other (ops : List StateOp) :
    ∀ (h : StateHeap) (addr a : Nat), a ≠ addr → (h.callAll addr ops) a = h a := by
  induction ops with
  | nil =>
    intro h addr a _
    rfl
  | cons op ops ih =>
    intro h addr a ha
    show ((h.call addr op).callAll addr ops) a = h a
    rw [ih (h.call addr op) addr a ha]
    unfold StateHeap.call
    cases h addr with
    | none => rfl
    | some s => exact Function.update_noteq ha _ _

theorem StateHeap.callAll_same (ops : List StateOp) :
    ∀ (h : StateHeap) (addr : Nat) (c : ObjectState), h addr = some c →
      (h.callAll addr ops) addr = some (c.run ops) := by
  induction ops with
  | nil =>
    intro h addr c hc
    exact hc
  | cons op ops ih =>
    intro h addr c hc
    show ((h.call addr op).callAll addr ops) addr = some ((c.apply op).run ops)
    apply ih
    unfold StateHeap.call
    rw [hc]
    exact Function.update_same _ _ _

/-- C11: the copy constructed at a fresh address from a state `s` has the time step,
log-likelihood, `times_skipped`, reference point type, both segments, the
`is_second_initialized` flag and the model of `s`; the construction leaves `s` as it was,
and so does any sequence of operations called on the copy afterwards
(`incrementTimesSkipped`, `resetTimesSkipped`, `setLogLikelihood` among them), which do
take effect on the copy. -/
theorem copy_is_faithful_and_independent (h : StateHeap) (src dst : Nat)
    (s : ObjectState) (ops : List StateOp) (hs : h src = some s) (hne : dst ≠ src) :
    ∃ c, (h.copyConstruct src dst) dst = some c ∧
      c.time_step = s.time_step ∧
      c.getLogLikelihood = s.getLogLikelihood ∧
      c.getTimesSkipped = s.getTimesSkipped ∧
      c.getReferencePointType = s.getReferencePointType ∧
      c.segment_1 = s.segment_1 ∧
      c.segment_2 = s.segment_2 ∧
      c.is_second_initialized = s.is_second_initialized ∧
      c.getMdl = s.getMdl ∧
      (h.copyConstruct src dst) src = some s ∧
      ((h.copyConstruct src dst).callAll dst ops) src = some s ∧
      ((h.copyConstruct src dst).callAll dst ops) dst = some (c.run ops) := by
  have hdst : (h.copyConstruct src dst) dst = some s.copy := by
    unfold StateHeap.copyConstruct
    rw [hs]
    exact Function.update_same _ _ _
  have hsrc : (h.copyConstruct src dst) src = some s := by
    unfold StateHeap.copyConstruct
    rw [hs]
    show Function.update h dst (some s.copy) src = some s
    rw [Function.update_noteq (Ne.symm hne), hs]
  refine ⟨s.copy, hdst, rfl, rfl, rfl, rfl, rfl, rfl, rfl, rfl, hsrc, ?_, ?_⟩
  · rw [StateHeap.callAll_other ops _ dst src (Ne.symm hne), hsrc]
  · exact StateHeap.callAll_same ops _ dst s.copy hdst

/-- Instance of the C11 theorem: the state at address 0 is copied to address 1 and the
sample sequence is called on the copy. -/
theorem copy_is_faithful_and_independent_witness :
    ∃ c, (oneStateHeap.copyConstruct 0 1) 1 = some c ∧
      c.time_step = (stateWithSkips 1).time_step ∧
      c.getLogLikelihood = (stateWithSkips 1).getLogLikelihood ∧
      c.getTimesSkipped = (stateWithSkips 1).getTimesSkipped ∧
      c.getReferencePointType = (stateWithSkips 1).getReferencePointType ∧
      c.segment_1 = (stateWithSkips 1).segment_1 ∧
      c.segment_2 = (stateWithSkips 1).segment_2 ∧
      c.is_second_initialized = (stateWithSkips 1).is_second_initialized ∧
      c.getMdl = (stateWithSkips 1).getMdl ∧
      (oneStateHeap.copyConstruct 0 1) 0 = some (stateWithSkips 1) ∧
      ((oneStateHeap.copyConstruct 0 1).callAll 1 sampleOps) 0 = some (stateWithSkips 1) ∧
      ((oneStateHeap.copyConstruct 0 1).callAll 1 sampleOps) 1 = some (c.run sampleOps) :=
  copy_is_faithful_and_independent oneStateHeap 0 1 (stateWithSkips 1) sampleOps rfl
    (by decide)

/-! ## Reports -/

theorem ObjectReport.callAll_eq (ops : List ReportOp) :
    ∀ r : ObjectReport, r.callAll ops = r := by
  induction ops with
  | nil =>
    intro r
    rfl
  | cons op ops ih =>
    intro r
    show (r.call op).2.callAll ops = r
    rw [ih]
    cases op <;> rfl

/-- C12: the report constructed from a false-alarm log-likelihood, an object, a frame
number and a corner id returns exactly those values from its four getters, and after any
finite sequence of calls of its public member functions it is the same report, so the
getters still return them. -/
theorem report_immutable_after_construction (false_alarm_log_likelihood : ℝ)
    (object : Object) (frame_number : Int) (corner_id : Nat) (ops : List ReportOp) :
    (ObjectReport.new false_alarm_log_likelihood object frame_number
      corner_id).getFalseAlarmLogLikelihood = false_alarm_log_likelihood ∧
    (ObjectReport.new false_alarm_log_likelihood object frame_number
      corner_id).getObject = object ∧
    (ObjectReport.new false_alarm_log_likelihood object frame_number
      corner_id).getFrameNumber = frame_number ∧
    (ObjectReport.new false_alarm_log_likelihood object frame_number
      corner_id).getCornerId = corner_id ∧
    (ObjectReport.new false_alarm_log_likelihood object frame_number corner_id).callAll ops
      = ObjectReport.new false_alarm_log_likelihood object frame_number corner_id ∧
    ((ObjectReport.new false_alarm_log_likelihood object frame_number
      corner_id).callAll ops).getFalseAlarmLogLikelihood = false_alarm_log_likelihood ∧
    ((ObjectReport.new false_alarm_log_likelihood object frame_number
      corner_id).callAll ops).getObject = object ∧
    ((ObjectReport.new false_alarm_log_likelihood object frame_number
      corner_id).callAll ops).getFrameNumber = frame_number ∧
    ((ObjectReport.new false_alarm_log_likelihood object frame_number
      corner_id).callAll ops).getCornerId = corner_id := by
  have hsame := ObjectReport.callAll_eq ops
    (ObjectReport.new false_alarm_log_likelihood object frame_number corner_id)
  refine ⟨rfl, rfl, rfl, rfl, hsame, ?_, ?_, ?_, ?_⟩ <;> rw [hsame] <;> rfl

/-! ## Construction of a state with an explicit state vector -/

/-- C13: a state constructed with the explicit state vector `(x, y, vx, vy)`, by the
constructor that copies the Kalman filter or by the one that takes it over, has its
predicted and its posterior state set to it: `getX() = getXPredicted() = x`,
`getY() = getYPredicted() = y`, `getVelocityX() = vx`, `getVelocityY() = vy`; and
`getLogLikelihood()` and `getTimesSkipped()` return the constructor's arguments. -/
theorem explicit_state_constructors_set_state (model : Nat)
    (time_step log_likelihood : ℝ) (times_skipped : Int)
    (reference_point_type : ReferencePointType)
    (reference_point_source : ReferencePointSource) (kalman_filter : KalmanFilter)
    (x y vx vy : ℝ) :
    ((ObjectState.newWithState model time_step log_likelihood times_skipped
        reference_point_type reference_point_source kalman_filter ![x, y, vx, vy]).getX = x ∧
      (ObjectState.newWithState model time_step log_likelihood times_skipped
        reference_point_type reference_point_source kalman_filter
        ![x, y, vx, vy]).getXPredicted = x ∧
      (ObjectState.newWithState model time_step log_likelihood times_skipped
        reference_point_type reference_point_source kalman_filter ![x, y, vx, vy]).getY = y ∧
      (ObjectState.newWithState model time_step log_likelihood times_skipped
        reference_point_type reference_point_source kalman_filter
        ![x, y, vx, vy]).getYPredicted = y ∧
      (ObjectState.newWithState model time_step log_likelihood times_skipped
        reference_point_type reference_point_source kalman_filter
        ![x, y, vx, vy]).getVelocityX = vx ∧
      (ObjectState.newWithState model time_step log_likelihood times_skipped
        reference_point_type reference_point_source kalman_filter
        ![x, y, vx, vy]).getVelocityY = vy ∧
      (ObjectState.newWithState model time_step log_likelihood times_skipped
        reference_point_type reference_point_source kalman_filter
        ![x, y, vx, vy]).getLogLikelihood = log_likelihood ∧
      (ObjectState.newWithState model time_step log_likelihood times_skipped
        reference_point_type reference_point_source kalman_filter
        ![x, y, vx, vy]).getTimesSkipped = times_skipped) ∧
    ((ObjectState.newMoved model time_step log_likelihood times_skipped
        reference_point_type reference_point_source kalman_filter ![x, y, vx, vy]).getX = x ∧
      (ObjectState.newMoved model time_step log_likelihood times_skipped
        reference_point_type reference_point_source kalman_filter
        ![x, y, vx, vy]).getXPredicted = x ∧
      (ObjectState.newMoved model time_step log_likelihood times_skipped
        reference_point_type reference_point_source kalman_filter ![x, y, vx, vy]).getY = y ∧
      (ObjectState.newMoved model time_step log_likelihood times_skipped
        reference_point_type reference_point_source kalman_filter
        ![x, y, vx, vy]).getYPredicted = y ∧
      (ObjectState.newMoved model time_step log_likelihood times_skipped
        reference_point_type reference_point_source kalman_filter
        ![x, y, vx, vy]).getVelocityX = vx ∧
      (ObjectState.newMoved model time_step log_likelihood times_skipped
        reference_point_type reference_point_source kalman_filter
        ![x, y, vx, vy]).getVelocityY = vy ∧
      (ObjectState.newMoved model time_step log_likelihood times_skipped
        reference_point_type reference_point_source kalman_filter
        ![x, y, vx, vy]).getLogLikelihood = log_likelihood ∧
      (ObjectState.newMoved model time_step log_likelihood times_skipped
        reference_point_type reference_point_source kalman_filter
        ![x, y, vx, vy]).getTimesSkipped = times_skipped) := by
  unfold ObjectState.newWithState ObjectState.newMoved ObjectState.new
    ObjectState.initializeWithPointSource
  constructor
  · refine ⟨rfl, rfl, rfl, rfl, rfl, rfl, ?_, ?_⟩ <;>
      simp only [ObjectState.getLogLikelihood, ObjectState.getTimesSkipped] <;>
      split <;> rfl
  · refine ⟨?_, ?_, ?_, ?_, ?_, ?_, ?_, ?_⟩ <;>
      simp only [ObjectState.getX, ObjectState.getXPredicted, ObjectState.getY,
        ObjectState.getYPredicted, ObjectState.getVelocityX, ObjectState.getVelocityY,
        ObjectState.getLogLikelihood, ObjectState.getTimesSkipped] <;>
      split <;> rfl

/-! ## Repeated transition and measurement -/

theorem transition_literal_mulVec (dt x y vx vy : ℝ) :
    (!![1.0, 0.0, dt, 0.0;
        0.0, 1.0, 0.0, dt;
        0.0, 0.0, 1.0, 0.0;
        0.0, 0.0, 0.0, 1.0] : StateTransition).mulVec ![x, y, vx, vy]
      = ![x + dt * vx, y + dt * vy, vx, vy] := by
  funext i
  fin_cases i <;> simp [Matrix.mulVec, Matrix.dotProduct, Fin.sum_univ_four] <;> norm_num

theorem transition_literal_pow_mulVec (dt : ℝ) (n : Nat) :
    ∀ x y vx vy : ℝ,
      ((!![1.0, 0.0, dt, 0.0;
           0.0, 1.0, 0.0, dt;
           0.0, 0.0, 1.0, 0.0;
           0.0, 0.0, 0.0, 1.0] : StateTransition) ^ n).mulVec ![x, y, vx, vy]
        = ![x + n * dt * vx, y + n * dt * vy, vx, vy] := by
  induction n with
  | zero =>
    intro x y vx vy
    simp
  | succ k ih =>
    intro x y vx vy
    rw [pow_succ, ← Matrix.mulVec_mulVec, transition_literal_mulVec, ih]
    funext i
    fin_cases i
    · show x + dt * vx + k * dt * vx = x + ((k + 1 : Nat) : ℝ) * dt * vx
      push_cast
      ring
    · show y + dt * vy + k * dt * vy = y + ((k + 1 : Nat) : ℝ) * dt * vy
      push_cast
      ring
    · rfl
    · rfl

theorem measurement_literal_mulVec (a b c d : ℝ) :
    (!![1.0, 0.0, 0.0, 0.0;
        0.0, 1.0, 0.0, 0.0] : MeasurementMatrix).mulVec ![a, b, c, d] = ![a, b] := by
  funext i
  fin_cases i <;> simp [Matrix.mulVec, Matrix.dotProduct, Fin.sum_univ_four] <;> norm_num

/-- C14: for the matrices `F` (`state_transition_`) and `H` (`measurement_matrix_`) the
constructor builds for time step `dt`, for every natural `n` and state `(x, y, vx, vy)`:
`H * F^n * (x, y, vx, vy) = (x + n*dt*vx, y + n*dt*vy)` and `F^n` leaves `vx` and `vy`
unchanged; in particular `H` projects a state onto its position, and two transition steps
advance the position by `2*dt` times the velocity. -/
theorem measurement_of_repeated_transition (dt max_mahalanobis_distance
    skip_decay_rate start_likelihood detect_likelihood : ℝ)
    (R : MeasurementNoiseCovariance) (P : InitialStateCovariance)
    (Q : ProcessNoiseCovariance) :
    ∃ m, ObjectModel.new dt max_mahalanobis_distance skip_decay_rate
          start_likelihood detect_likelihood R P Q = Except.ok m ∧
      ∀ (n : Nat) (x y vx vy : ℝ),
        (m.measurement_matrix * m.state_transition ^ n).mulVec ![x, y, vx, vy]
          = ![x + n * dt * vx, y + n * dt * vy] ∧
        ((m.state_transition ^ n).mulVec ![x, y, vx, vy]) 2 = vx ∧
        ((m.state_transition ^ n).mulVec ![x, y, vx, vy]) 3 = vy ∧
        m.measurement_matrix.mulVec ![x, y, vx, vy] = ![x, y] ∧
        m.measurement_matrix.mulVec
            (m.state_transition.mulVec (m.state_transition.mulVec ![x, y, vx, vy]))
          = ![x + 2 * dt * vx, y + 2 * dt * vy] := by
  refine ⟨_, rfl, ?_⟩
  intro n x y vx vy
  refine ⟨?_, ?_, ?_, ?_, ?_⟩
  · rw [← Matrix.mulVec_mulVec]
    show Matrix.mulVec _ (Matrix.mulVec (_ ^ n) _) = _
    rw [transition_literal_pow_mulVec, measurement_literal_mulVec]
  · show (Matrix.mulVec (_ ^ n) _) 2 = vx
    rw [transition_literal_pow_mulVec]
    rfl
  · show (Matrix.mulVec (_ ^ n) _) 3 = vy
    rw [transition_literal_pow_mulVec]
    rfl
  · exact measurement_literal_mulVec x y vx vy
  · show Matrix.mulVec _ (Matrix.mulVec _ (Matrix.mulVec _ _)) = _
    rw [transition_literal_mulVec, transition_literal_mulVec, measurement_literal_mulVec]
    funext i
    fin_cases i
    · show x + dt * vx + dt * vx = x + 2 * dt * vx
      ring
    · show y + dt * vy + dt * vy = y + 2 * dt * vy
      ring

end LaserObjectTracker
